import Mathlib

/-!
Verification of the `LocalStorageStore` session-store adapter
(`src/packages/ember-simple-auth/src/session-stores/local-storage.js`).

The store persists a JSON-serializable session object under a single
`localStorage` key, restores it, clears it, and bridges cross-tab
`storage` events into `sessionDataUpdated` notifications.

The embedding models JavaScript values reachable by this code as `JSVal`,
the host `localStorage` as an association list from keys to stored text,
and each store operation as a pure state transformer that also records the
raw storage accesses it performs and the events it triggers.
-/

/-- JavaScript values handled by the store: `undef` models `undefined`
(including an absent argument or an unset property), `bigint` models a
BigInt value (on which `JSON.stringify` throws a TypeError); the remaining
constructors are the JSON data constructors. Objects are association
lists of fields. -/
inductive JSVal where
  | undef
  | null
  | bool (b : Bool)
  | num (n : Int)
  | str (s : String)
  | bigint (n : Int)
  | arr (xs : List JSVal)
  | obj (fields : List (String × JSVal))

/-- JavaScript truthiness of a value, as used by `data || {}` in `persist`
and `JSON.parse(data) || {}` in `restore`. -/
def jsTruthy : JSVal → Bool
  | .undef => false
  | .null => false
  | .bool b => b
  | .num n => n != 0
  | .str s => s != ""
  | .bigint n => n != 0
  | .arr _ => true
  | .obj _ => true

/-- JavaScript `a || b`: `a` when truthy, otherwise `b`. -/
def jsOr (a b : JSVal) : JSVal :=
  if jsTruthy a then a else b

mutual
/-- `true` when `JSON.stringify` succeeds on the value and the produced
text parses back to the same value: no `undefined` and no BigInt occurs
anywhere inside. -/
def jsSerializable : JSVal → Bool
  | .undef => false
  | .null => true
  | .bool _ => true
  | .num _ => true
  | .str _ => true
  | .bigint _ => false
  | .arr xs => jsSerializableList xs
  | .obj fs => jsSerializableFields fs

def jsSerializableList : List JSVal → Bool
  | [] => true
  | x :: xs => jsSerializable x && jsSerializableList xs

def jsSerializableFields : List (String × JSVal) → Bool
  | [] => true
  | (_, v) :: fs => jsSerializable v && jsSerializableFields fs
end

/-- Raw text stored in a `localStorage` slot, abstracted by its parse
behaviour. Modelled from the spec: the host storage holds "raw text";
`wellFormed v` stands for JSON text whose parse yields `v`, `malformed s`
for text on which `JSON.parse` throws a SyntaxError. -/
inductive StoredText where
  | wellFormed (v : JSVal)
  | malformed (s : String)

/-- Errors thrown by the host JSON primitives: `typeError` from
`JSON.stringify` on a non-serializable value, `syntaxError` from
`JSON.parse` on malformed text. -/
inductive JsErr where
  | typeError
  | syntaxError
  deriving DecidableEq, Repr

/-- Modelled from the spec: host `JSON.stringify`. On a JSON-serializable
value it produces text that parses back to the same value; on a value
containing a BigInt it throws a TypeError. (The host silently drops
`undefined`-valued object fields instead of failing; the claims only
exercise the serializable domain and the failing domain, so the model
folds `undefined` into the failing case and records that restriction
here.) -/
def jsonStringify (v : JSVal) : Except JsErr StoredText :=
  if jsSerializable v then .ok (.wellFormed v) else .error .typeError

/-- Modelled from the spec: host `JSON.parse` applied to the result of
`localStorage.getItem`. `getItem` yields `null` for an absent key and
`JSON.parse(null)` coerces its argument to the text `"null"`, which parses
to the JSON value `null`; well-formed text parses to its value; malformed
text throws a SyntaxError. -/
def jsonParseGot : Option StoredText → Except JsErr JSVal
  | none => .ok .null
  | some (.wellFormed v) => .ok v
  | some (.malformed _) => .error .syntaxError

/-- The host `localStorage`: an association list from keys to stored text. -/
def Storage := List (String × StoredText)

/-- `localStorage.getItem`: the text at `k`, or `none` when absent. -/
def Storage.getItem (s : Storage) (k : String) : Option StoredText :=
  (List.find? (fun p => p.1 == k) s).map Prod.snd

/-- `localStorage.removeItem`: delete the slot at `k` (a no-op when the
key is absent). -/
def Storage.removeItem (s : Storage) (k : String) : Storage :=
  List.filter (fun p => p.1 != k) s

/-- `localStorage.setItem`: overwrite the slot at `k` with `t`. -/
def Storage.setItem (s : Storage) (k : String) (t : StoredText) : Storage :=
  (k, t) :: Storage.removeItem s k

/-- A raw host-storage access performed by an operation. -/
inductive StorageOp where
  | getItem (key : String)
  | setItem (key : String) (text : StoredText)
  | removeItem (key : String)

mutual
/-- Modelled from the spec: `objectsAreEqual` from
`utils/objects-are-equal` (not under `src/`), described as a
"deep/structural equality check (order-insensitive for mapping keys)".
Objects are equal when every field of the first has a deep-equal field of
the same name in the second and every key of the second occurs in the
first; arrays compare pointwise; primitives compare by value. -/
def jsonEq : JSVal → JSVal → Bool
  | .undef, .undef => true
  | .null, .null => true
  | .bool a, .bool b => a == b
  | .num a, .num b => a == b
  | .str a, .str b => a == b
  | .bigint a, .bigint b => a == b
  | .arr a, .arr b => jsonEqList a b
  | .obj a, .obj b =>
      jsonEqFields a b && List.all b (fun p => List.any a (fun q => q.1 == p.1))
  | _, _ => false

def jsonEqList : List JSVal → List JSVal → Bool
  | [], [] => true
  | x :: xs, y :: ys => jsonEq x y && jsonEqList xs ys
  | _, _ => false

def jsonEqFields : List (String × JSVal) → List (String × JSVal) → Bool
  | [], _ => true
  | (k, v) :: rest, b =>
      (match (List.find? (fun p => p.1 == k) b).map Prod.snd with
       | some w => jsonEq v w
       | none => false) && jsonEqFields rest b
end

/-- The mutable instance state of a `LocalStorageStore`: the configured
`key`, the cached `_isFastBoot` flag, whether the native `storage`
listener is currently attached, and the `_lastData` snapshot. `_lastData`
is a plain JavaScript property, so an unset snapshot is the value
`undefined` (`JSVal.undef`). -/
structure LSStore where
  key : String
  isFastBoot : Bool
  listenerAttached : Bool
  lastData : JSVal

/-- The default `key` property of the class body. -/
def defaultKey : String := "ember_simple_auth-session"

/-- `init()`: caches the environment-probe result in `_isFastBoot` and, in
a browser context, attaches the bound `storage` listener. `fastBoot` is
the resolved probe value (`this._isFastBoot` when the property is set, the
`isFastBoot(getOwner(this))` probe otherwise). `this._super(...)` is the
base store, modelled from the spec as a pure persist/restore/clear
contract with no instance state, so no code assigns `_lastData` during
initialization and the snapshot starts out `undefined`. -/
def LSStore.init (key : String) (fastBoot : Bool) : LSStore :=
  { key := key
    isFastBoot := fastBoot
    listenerAttached := !fastBoot
    lastData := .undef }

/-- `willDestroy()`: in a browser context, removes the `storage`
listener. -/
def LSStore.willDestroy (st : LSStore) : LSStore :=
  if !st.isFastBoot then { st with listenerAttached := false } else st

/-- Result of one store operation: the updated instance state and host
storage, the raw storage accesses performed, and the resolved value or
the propagated error. -/
structure OpResult (α : Type) where
  store : LSStore
  storage : Storage
  accesses : List StorageOp
  outcome : Except JsErr α

/-- `persist(data)`: assigns `this._lastData = data` first, then
serializes `data || {}`; a serialization error propagates at that point,
leaving the snapshot already updated and the storage untouched; otherwise
the text is written to the configured key and the operation resolves. -/
def LSStore.persist (st : LSStore) (stor : Storage) (data : JSVal) :
    OpResult Unit :=
  let st' : LSStore := { st with lastData := data }
  match jsonStringify (jsOr data (.obj [])) with
  | .error e => ⟨st', stor, [], .error e⟩
  | .ok text =>
      ⟨st', stor.setItem st.key text, [.setItem st.key text], .ok ()⟩

/-- `restore()`: reads the raw text at the configured key, parses it, and
resolves with the parsed value, or with `{}` when the parsed value is
falsy; a parse error propagates. The instance state — in particular the
`_lastData` snapshot — is not modified. -/
def LSStore.restore (st : LSStore) (stor : Storage) : OpResult JSVal :=
  let data := stor.getItem st.key
  match jsonParseGot data with
  | .error e => ⟨st, stor, [.getItem st.key], .error e⟩
  | .ok v => ⟨st, stor, [.getItem st.key], .ok (jsOr v (.obj []))⟩

/-- `clear()`: deletes the storage slot at the configured key and resets
`this._lastData` to `{}`. -/
def LSStore.clear (st : LSStore) (stor : Storage) : OpResult Unit :=
  ⟨{ st with lastData := .obj [] }, stor.removeItem st.key,
    [.removeItem st.key], .ok ()⟩

/-- A native `storage` change notification, carrying the key that
changed. -/
structure StorageEvent where
  key : String
  deriving DecidableEq, Repr

/-- Result of `_handleStorageEvent`: the updated instance state, the raw
storage accesses performed, and the payloads of the `sessionDataUpdated`
events triggered. -/
structure HandlerResult where
  store : LSStore
  accesses : List StorageOp
  events : List JSVal

/-- `_handleStorageEvent(e)`: when `e.key` matches the configured key,
restores and — only when the restored value is not `objectsAreEqual` to
the cached snapshot — updates the snapshot and triggers exactly one
`sessionDataUpdated` event with the restored value; a rejected restore
skips the `then` callback; a non-matching key does nothing. -/
def LSStore.handleStorageEvent (st : LSStore) (stor : Storage)
    (e : StorageEvent) : HandlerResult :=
  if e.key == st.key then
    let r := st.restore stor
    match r.outcome with
    | .ok data =>
        if jsonEq data st.lastData then
          ⟨st, r.accesses, []⟩
        else
          ⟨{ st with lastData := data }, r.accesses, [data]⟩
    | .error _ => ⟨st, r.accesses, []⟩
  else
    ⟨st, [], []⟩

/-! ### Storage lemmas -/

theorem Storage.getItem_setItem_self (s : Storage) (k : String)
    (t : StoredText) : (s.setItem k t).getItem k = some t := by
  simp [Storage.getItem, Storage.setItem, List.find?]

theorem Storage.getItem_removeItem_self (s : Storage) (k : String) :
    (s.removeItem k).getItem k = none := by
  simp only [Storage.getItem, Storage.removeItem, Option.map_eq_none',
    List.find?_eq_none, List.mem_filter]
  intro p hp
  simpa using hp.2

theorem Storage.removeItem_removeItem_self (s : Storage) (k : String) :
    (s.removeItem k).removeItem k = s.removeItem k := by
  simp [Storage.removeItem, List.filter_filter]

/-- `restore` performs exactly one raw `getItem` access on the configured
key, whether it resolves or rejects. -/
theorem LSStore.restore_accesses (st : LSStore) (stor : Storage) :
    (st.restore stor).accesses = [.getItem st.key] := by
  cases h : jsonParseGot (stor.getItem st.key) <;>
    simp [LSStore.restore, h]

/-! ### Claim theorems -/

/-- C1: for every JSON-serializable mapping `M` (including the empty
mapping and nested structures), `persist M` followed by `restore` resolves
with a value deep-equal to `M` — here with exactly `M`, the strongest form
of deep equality. -/
theorem persist_restore_roundtrip (st : LSStore) (stor : Storage)
    (fields : List (String × JSVal))
    (hser : jsSerializable (.obj fields) = true) :
    ((st.persist stor (.obj fields)).store.restore
        (st.persist stor (.obj fields)).storage).outcome
      = .ok (.obj fields) := by
  have h1 : st.persist stor (.obj fields)
      = ⟨{ st with lastData := .obj fields },
         stor.setItem st.key (.wellFormed (.obj fields)),
         [.setItem st.key (.wellFormed (.obj fields))], .ok ()⟩ := by
    simp [LSStore.persist, jsOr, jsTruthy, jsonStringify, hser]
  rw [h1]
  simp [LSStore.restore, Storage.getItem_setItem_self, jsonParseGot,
    jsOr, jsTruthy]

theorem persist_restore_roundtrip_witness :
    jsSerializable
        (.obj [("token", .str "abc"),
               ("nested", .obj [("a", .arr [.num 1, .null])])]) = true ∧
    (((LSStore.init defaultKey false).persist []
          (.obj [("token", .str "abc"),
                 ("nested", .obj [("a", .arr [.num 1, .null])])])).store.restore
        ((LSStore.init defaultKey false).persist []
          (.obj [("token", .str "abc"),
                 ("nested", .obj [("a", .arr [.num 1, .null])])])).storage).outcome
      = .ok (.obj [("token", .str "abc"),
                   ("nested", .obj [("a", .arr [.num 1, .null])])]) :=
  ⟨by rfl,
   persist_restore_roundtrip (LSStore.init defaultKey false) []
     [("token", .str "abc"), ("nested", .obj [("a", .arr [.num 1, .null])])]
     (by rfl)⟩

/-- C3: when the text stored at the configured key is malformed,
`restore` propagates the parse failure as a rejected outcome instead of
swallowing it or resolving with an empty mapping. -/
theorem restore_malformed_rejects (st : LSStore) (stor : Storage)
    (s : String) (h : stor.getItem st.key = some (.malformed s)) :
    (st.restore stor).outcome = .error .syntaxError := by
  simp [LSStore.restore, h, jsonParseGot]

theorem restore_malformed_rejects_witness :
    (Storage.getItem [(defaultKey, StoredText.malformed "oops")]
        (LSStore.init defaultKey false).key
      = some (.malformed "oops")) ∧
    ((LSStore.init defaultKey false).restore
        [(defaultKey, StoredText.malformed "oops")]).outcome
      = .error .syntaxError :=
  ⟨by rfl,
   restore_malformed_rejects (LSStore.init defaultKey false)
     [(defaultKey, StoredText.malformed "oops")] "oops" (by rfl)⟩

/-- C6: when the configured key was never written (slot absent),
`restore` resolves with the empty mapping, not an error. -/
theorem restore_absent_empty (st : LSStore) (stor : Storage)
    (h : stor.getItem st.key = none) :
    (st.restore stor).outcome = .ok (.obj []) := by
  simp [LSStore.restore, h, jsonParseGot, jsOr, jsTruthy]

theorem restore_absent_empty_witness :
    (Storage.getItem [] (LSStore.init defaultKey false).key = none) ∧
    ((LSStore.init defaultKey false).restore []).outcome = .ok (.obj []) :=
  ⟨by rfl, restore_absent_empty (LSStore.init defaultKey false) [] (by rfl)⟩

/-- C7: `persist data` stores the given pre-serialization value in the
`_lastData` snapshot (the raw argument, not the JSON text), writes the
JSON serialization of `data || {}` into the configured key's slot, and —
since `undefined` is falsy — an absent/undefined argument is written as
the empty mapping. -/
theorem persist_effect (st : LSStore) (stor : Storage) (data : JSVal)
    (hser : jsSerializable (jsOr data (.obj [])) = true) :
    (st.persist stor data).store.lastData = data ∧
    Storage.getItem (st.persist stor data).storage st.key
      = some (.wellFormed (jsOr data (.obj []))) ∧
    (data = .undef →
      Storage.getItem (st.persist stor data).storage st.key
        = some (.wellFormed (.obj []))) ∧
    (st.persist stor data).outcome = .ok () := by
  have h1 : st.persist stor data
      = ⟨{ st with lastData := data },
         stor.setItem st.key (.wellFormed (jsOr data (.obj []))),
         [.setItem st.key (.wellFormed (jsOr data (.obj [])))], .ok ()⟩ := by
    simp [LSStore.persist, jsonStringify, hser]
  rw [h1]
  refine ⟨rfl, Storage.getItem_setItem_self .., ?_, rfl⟩
  intro hd
  subst hd
  exact Storage.getItem_setItem_self ..

theorem persist_effect_witness :
    jsSerializable (jsOr .undef (.obj [])) = true ∧
    ((LSStore.init defaultKey false).persist [] .undef).store.lastData
      = .undef ∧
    Storage.getItem
        ((LSStore.init defaultKey false).persist [] .undef).storage
        (LSStore.init defaultKey false).key
      = some (.wellFormed (.obj [])) ∧
    ((LSStore.init defaultKey false).persist [] .undef).outcome = .ok () :=
  have h := persist_effect (LSStore.init defaultKey false) [] .undef (by rfl)
  ⟨by rfl, h.1, h.2.2.1 rfl, h.2.2.2⟩

/-- C10: `persist` is not atomic with respect to serialization failure:
`this._lastData = data` runs before `JSON.stringify`, so when
serialization of `data || {}` throws, the snapshot already holds the new
value while the storage slot and the rest of the storage are unchanged,
and the failure propagates. -/
theorem persist_nonatomic (st : LSStore) (stor : Storage) (data : JSVal)
    (h : jsonStringify (jsOr data (.obj [])) = .error .typeError) :
    (st.persist stor data).store.lastData = data ∧
    (st.persist stor data).storage = stor ∧
    (st.persist stor data).accesses = [] ∧
    (st.persist stor data).outcome = .error .typeError := by
  simp [LSStore.persist, h]

theorem persist_nonatomic_witness :
    jsonStringify (jsOr (.obj [("n", .bigint 1)]) (.obj []))
      = .error .typeError ∧
    ((LSStore.init defaultKey false).persist
        [(defaultKey, StoredText.wellFormed (.obj []))]
        (.obj [("n", .bigint 1)])).store.lastData
      = .obj [("n", .bigint 1)] ∧
    ((LSStore.init defaultKey false).persist
        [(defaultKey, StoredText.wellFormed (.obj []))]
        (.obj [("n", .bigint 1)])).storage
      = [(defaultKey, StoredText.wellFormed (.obj []))] ∧
    ((LSStore.init defaultKey false).persist
        [(defaultKey, StoredText.wellFormed (.obj []))]
        (.obj [("n", .bigint 1)])).outcome
      = .error .typeError :=
  have h := persist_nonatomic (LSStore.init defaultKey false)
    [(defaultKey, StoredText.wellFormed (.obj []))]
    (.obj [("n", .bigint 1)]) (by rfl)
  ⟨by rfl, h.1, h.2.1, h.2.2.2⟩

/-- A sample store whose snapshot holds the mapping with field a = 1. -/
def sampleStoreA1 : LSStore :=
  { key := defaultKey
    isFastBoot := false
    listenerAttached := true
    lastData := .obj [("a", .num 1)] }

/-- A sample storage whose configured slot holds the serialized mapping
with field a = 2. -/
def sampleStorageA2 : Storage :=
  [(defaultKey, .wellFormed (.obj [("a", .num 2)]))]

/-- C2: on a change notification for the configured key whose freshly
restored value is `objectsAreEqual` to the cached snapshot, the handler
triggers no `sessionDataUpdated` event and leaves the instance unchanged;
when the restored value differs, the handler triggers exactly one event
carrying the restored value and updates the snapshot to it. -/
theorem handleStorageEvent_dedup (st : LSStore) (stor : Storage)
    (e : StorageEvent) (v : JSVal)
    (hk : e.key = st.key)
    (hr : (st.restore stor).outcome = .ok v) :
    (jsonEq v st.lastData = true →
       st.handleStorageEvent stor e = ⟨st, [.getItem st.key], []⟩) ∧
    (jsonEq v st.lastData = false →
       st.handleStorageEvent stor e
         = ⟨{ st with lastData := v }, [.getItem st.key], [v]⟩) := by
  have hb : (e.key == st.key) = true := by simp [hk]
  have hacc := LSStore.restore_accesses st stor
  constructor <;> intro hEq <;>
    simp [LSStore.handleStorageEvent, hb, hr, hEq, hacc]

theorem handleStorageEvent_dedup_witness :
    (⟨defaultKey⟩ : StorageEvent).key = sampleStoreA1.key ∧
    (sampleStoreA1.restore sampleStorageA2).outcome
      = .ok (.obj [("a", .num 2)]) ∧
    jsonEq (.obj [("a", .num 2)]) sampleStoreA1.lastData = false ∧
    sampleStoreA1.handleStorageEvent sampleStorageA2 ⟨defaultKey⟩
      = ⟨{ sampleStoreA1 with lastData := .obj [("a", .num 2)] },
         [.getItem defaultKey], [.obj [("a", .num 2)]]⟩ :=
  ⟨rfl, by rfl, by rfl,
   (handleStorageEvent_dedup sampleStoreA1 sampleStorageA2 ⟨defaultKey⟩
       (.obj [("a", .num 2)]) rfl (by rfl)).2 (by rfl)⟩

/-- C8: a change notification whose key differs from the configured key is
ignored: no restore (no raw storage access), no snapshot update, no
event. -/
theorem handleStorageEvent_other_key (st : LSStore) (stor : Storage)
    (e : StorageEvent) (h : e.key ≠ st.key) :
    st.handleStorageEvent stor e = ⟨st, [], []⟩ := by
  have hb : (e.key == st.key) = false := by simp [h]
  simp [LSStore.handleStorageEvent, hb]

theorem handleStorageEvent_other_key_witness :
    (⟨"some-other-key"⟩ : StorageEvent).key ≠ sampleStoreA1.key ∧
    sampleStoreA1.handleStorageEvent sampleStorageA2 ⟨"some-other-key"⟩
      = ⟨sampleStoreA1, [], []⟩ :=
  ⟨by simp [sampleStoreA1, defaultKey],
   handleStorageEvent_other_key sampleStoreA1 sampleStorageA2
     ⟨"some-other-key"⟩ (by simp [sampleStoreA1, defaultKey])⟩

/-- C4 counterexample: the snapshot is `undefined`, not the empty mapping,
right after initialization, and a successful `restore` leaves the snapshot
untouched instead of overwriting it with the restored value. -/
theorem snapshot_lifecycle_counterexample :
    (LSStore.init defaultKey false).lastData ≠ .obj [] ∧
    (sampleStoreA1.restore sampleStorageA2).outcome
      = .ok (.obj [("a", .num 2)]) ∧
    (sampleStoreA1.restore sampleStorageA2).store = sampleStoreA1 ∧
    sampleStoreA1.lastData ≠ .obj [("a", .num 2)] := by
  refine ⟨?_, by rfl, by rfl, ?_⟩
  · simp [LSStore.init]
  · simp [sampleStoreA1]

/-- C4 (amended): the `_lastData` snapshot is `undefined` at store
initialization (no code assigns it), is overwritten with the raw argument
on every `persist` call, is left unchanged by `restore` (only the
storage-event handler updates it), and is reset to the empty mapping by
`clear`. -/
theorem snapshot_lifecycle (k : String) (fb : Bool) (st : LSStore)
    (stor : Storage) (d : JSVal) :
    (LSStore.init k fb).lastData = .undef ∧
    (st.persist stor d).store.lastData = d ∧
    (st.restore stor).store = st ∧
    (st.clear stor).store.lastData = .obj [] := by
  refine ⟨rfl, ?_, ?_, rfl⟩
  · cases h : jsonStringify (jsOr d (.obj [])) <;> simp [LSStore.persist, h]
  · cases h : jsonParseGot (stor.getItem st.key) <;> simp [LSStore.restore, h]

/-- C5 counterexample: a store initialized in a FastBoot context still
performs a raw storage write on `persist` — the storage calls are not
skipped. -/
theorem fastboot_noop_counterexample :
    (LSStore.init defaultKey true).isFastBoot = true ∧
    ((LSStore.init defaultKey true).persist []
        (.obj [("a", .num 1)])).accesses
      = [.setItem defaultKey (.wellFormed (.obj [("a", .num 1)]))] ∧
    ((LSStore.init defaultKey true).persist []
        (.obj [("a", .num 1)])).accesses ≠ [] ∧
    Storage.getItem
        ((LSStore.init defaultKey true).persist []
          (.obj [("a", .num 1)])).storage defaultKey
      = some (.wellFormed (.obj [("a", .num 1)])) := by
  have h2 : ((LSStore.init defaultKey true).persist []
        (.obj [("a", .num 1)])).accesses
      = [.setItem defaultKey (.wellFormed (.obj [("a", .num 1)]))] := by rfl
  refine ⟨rfl, h2, ?_, by rfl⟩
  rw [h2]
  simp

/-- C5 (amended): in a FastBoot context only the native listener
registration and removal are skipped — `init` leaves the listener detached
and `willDestroy` is a no-op — while `persist`, `restore` and `clear`
still perform their raw storage calls exactly as in a browser context. -/
theorem fastboot_skips_listener_only (k : String) (st : LSStore)
    (stor : Storage) (d : JSVal)
    (_hfb : st.isFastBoot = true)
    (hser : jsSerializable (jsOr d (.obj [])) = true) :
    (LSStore.init k true).listenerAttached = false ∧
    (LSStore.init k true).willDestroy = LSStore.init k true ∧
    (st.persist stor d).accesses
      = [.setItem st.key (.wellFormed (jsOr d (.obj [])))] ∧
    (st.restore stor).accesses = [.getItem st.key] ∧
    (st.clear stor).accesses = [.removeItem st.key] := by
  refine ⟨rfl, ?_, ?_, LSStore.restore_accesses .., rfl⟩
  · simp [LSStore.willDestroy, LSStore.init]
  · simp [LSStore.persist, jsonStringify, hser]

theorem fastboot_skips_listener_only_witness :
    (LSStore.init defaultKey true).isFastBoot = true ∧
    jsSerializable (jsOr (.obj [("a", .num 1)]) (.obj [])) = true ∧
    (LSStore.init defaultKey true).listenerAttached = false ∧
    ((LSStore.init defaultKey true).persist []
        (.obj [("a", .num 1)])).accesses
      = [.setItem defaultKey
          (.wellFormed (jsOr (.obj [("a", .num 1)]) (.obj [])))] ∧
    ((LSStore.init defaultKey true).restore []).accesses
      = [.getItem defaultKey] ∧
    ((LSStore.init defaultKey true).clear []).accesses
      = [.removeItem defaultKey] :=
  have h := fastboot_skips_listener_only defaultKey
    (LSStore.init defaultKey true) [] (.obj [("a", .num 1)]) rfl (by rfl)
  ⟨rfl, by rfl, h.1, h.2.2.1, h.2.2.2.1, h.2.2.2.2⟩

/-- C9: `clear` is idempotent — after each of two successive calls the
storage slot is absent and the snapshot is the empty mapping, the second
call succeeds even though the key is already absent, and the second
deletion leaves the storage exactly as the first left it. -/
theorem clear_idempotent (st : LSStore) (stor : Storage) :
    Storage.getItem (st.clear stor).storage st.key = none ∧
    (st.clear stor).store.lastData = .obj [] ∧
    (st.clear stor).outcome = .ok () ∧
    Storage.getItem
        ((st.clear stor).store.clear (st.clear stor).storage).storage
        st.key = none ∧
    ((st.clear stor).store.clear (st.clear stor).storage).store.lastData
      = .obj [] ∧
    ((st.clear stor).store.clear (st.clear stor).storage).outcome
      = .ok () ∧
    ((st.clear stor).store.clear (st.clear stor).storage).storage
      = (st.clear stor).storage :=
  ⟨Storage.getItem_removeItem_self .., rfl, rfl,
   Storage.getItem_removeItem_self .., rfl, rfl,
   Storage.removeItem_removeItem_self ..⟩
